import Mathlib

/-!
Shallow embedding of `src/bot.py` (CarerMateBot): a Telegram front end that
authorizes callers, routes text and voice messages, and forwards content to a
transcription backend and a chat-completion backend.

The three handlers (`start`, `handle_text`, `handle_voice`) and the shared
`process_with_gpt` helper are embedded as pure functions over an explicit
oracle describing the outcome of every external call (file-URL resolution,
HTTP download, transcription, chat completion, reply delivery).  Each handler
returns a trace recording the backend calls it made, the replies it sent, the
temporary-file operations it performed, and whether an exception escaped it.
-/

namespace CarerMateBot

/-! ## Configuration parsing and the authorization gate

`bot.py` lines 23-24:
  raw_ids = os.getenv("AUTHORIZED_CHAT_ID", "")
  AUTHORIZED_CHAT_IDS = [int(x) for x in raw_ids.split(",") if x.strip().isdigit()]
An absent environment variable yields the empty string. -/

/-- Characters removed by Python `str.strip()` with no argument
(ASCII whitespace). -/
def pyCharIsSpace (c : Char) : Bool :=
  c = ' ' || c = '\t' || c = '\n' || c = '\r' || c = '\x0b' || c = '\x0c'

/-- Python `str.strip()`: drop whitespace from both ends. -/
def pyStrip (s : String) : String :=
  ⟨((s.data.dropWhile pyCharIsSpace).reverse.dropWhile pyCharIsSpace).reverse⟩

/-- Python `str.lower()` (restricted to ASCII letters). -/
def pyLower (s : String) : String :=
  ⟨s.data.map Char.toLower⟩

/-- Helper for `str.split(",")` on the character list of the string:
a separator-keeping split that preserves empty fields, so the empty string
yields `[[]]` just as Python `"".split(",") == [""]`. -/
def splitCommaAux : List Char → List (List Char)
  | [] => [[]]
  | c :: rest =>
    if c = ',' then [] :: splitCommaAux rest
    else
      match splitCommaAux rest with
      | [] => [[c]]
      | l :: ls => (c :: l) :: ls

/-- Python `str.split(",")`. -/
def pySplitComma (s : String) : List String :=
  (splitCommaAux s.data).map (fun l => ⟨l⟩)

/-- Python `str.isdigit` (restricted to ASCII): true iff the string is
non-empty and every character is a decimal digit. -/
def pyIsDigit (s : String) : Bool :=
  !s.data.isEmpty && s.data.all Char.isDigit

/-- Value of Python `int(x)` on an entry `x` whose stripped form is all
digits: `int` ignores surrounding whitespace, so it equals the base-10 value
of the stripped digit string. -/
def pyIntOfDigits (s : String) : Nat :=
  s.data.foldl (fun n c => n * 10 + (c.toNat - 48)) 0

/-- `AUTHORIZED_CHAT_IDS`, as a function of the raw environment string
(`bot.py` line 24): split on commas, keep entries whose stripped form is all
digits, convert each to an integer. -/
def AUTHORIZED_CHAT_IDS (raw_ids : String) : List Int :=
  ((pySplitComma raw_ids).filter (fun x => pyIsDigit (pyStrip x))).map
    (fun x => (pyIntOfDigits (pyStrip x) : Int))

/-- `is_authorized` (`bot.py` lines 32-34): membership of the chat id in the
allow-list. -/
def is_authorized (ids : List Int) (chat_id : Int) : Bool :=
  ids.contains chat_id

/-! ## Static strings of `bot.py` -/

/-- Rejection notice sent to unauthorized callers (lines 44, 58, 77). -/
def rejection_message : String := "❌ You are not authorised to use this bot."

/-- Greeting of the `/start` handler (line 50). -/
def greeting_message : String := "Hi! Please choose an option below:"

/-- Keyboard presented by `/start` (line 47). -/
def start_keyboard : List (List String) := [["Help", "Write", "Record"]]

/-- Static reply to the `help` keyword (line 64). -/
def help_reply : String := "🆘 What do you need help with?"

/-- Static reply to the `write` keyword (line 66). -/
def write_reply : String := "✍️ Please type what you\u0027d like me to help you write."

/-- Static reply to the `record` keyword (line 68). -/
def record_reply : String := "🎙️ Please send a voice message."

/-- Error message of the except branch in the voice handler (line 102). -/
def voice_error_message : String :=
  "⚠️ Error while transcribing or processing the voice message."

/-- Error message substituted when the chat-completion call raises (line 132). -/
def gpt_error_message : String := "⚠️ Error while processing your message."

/-- The default `system_prompt` of `process_with_gpt` (lines 111-119), built
by Python adjacent-string concatenation. -/
def default_system_prompt : String :=
  "You are a professional rewriting assistant. " ++
  "When given bullet points, you MUST:\n" ++
  "- Transform them into a coherent narrative written in the first‑person voice.\n" ++
  "- Use English only—no other languages.\n" ++
  "- Write at least three sentences per paragraph and at least two paragraphs overall.\n" ++
  "- Maintain a clear, consistent tone appropriate for summarizing notes or reports.\n" ++
  "Do NOT add extra commentary or translate."

/-- The system prompt `handle_voice` passes explicitly (line 99). -/
def helpful_assistant_prompt : String := "You are a helpful assistant."

/-! ## `process_with_gpt` (`bot.py` lines 108-134)

One chat-completion request with one system and one user message; a backend
error is caught and replaced by a static reply string; the reply is then sent
outside the try/except.  The oracle supplies the backend outcome
(`gptResult`: `some text` for a successful round trip, `none` when the call
raises) and whether the final `reply_text` delivery succeeds (`replyOk`). -/

/-- One request to the chat-completion backend: the system and user message
contents (`bot.py` lines 125-128). -/
structure RewriteCall where
  system_prompt : String
  user_content : String
deriving DecidableEq, Repr

/-- Observable outcome of one `process_with_gpt` invocation. -/
structure GptOutcome where
  /-- Chat-completion requests issued (in order), successful or not. -/
  rewriteCalls : List RewriteCall
  /-- Replies delivered to the caller (in order). -/
  replies : List String
  /-- Whether an exception escaped `process_with_gpt`. -/
  raised : Bool
deriving DecidableEq, Repr

/-- `process_with_gpt` (lines 108-134).  The backend call is guarded by
try/except, which maps any backend error to `gpt_error_message`; the
`reply_text` at line 134 is outside that guard, so its failure escapes. -/
def process_with_gpt (gptResult : Option String) (replyOk : Bool)
    (user_content : String) (system_prompt : String) : GptOutcome :=
  let call : RewriteCall := ⟨system_prompt, user_content⟩
  let reply : String :=
    match gptResult with
    | some text => text
    | none => gpt_error_message
  if replyOk then ⟨[call], [reply], false⟩
  else ⟨[call], [], true⟩

/-! ## `start` (`bot.py` lines 40-51) -/

/-- Observable outcome of the `/start` handler. -/
structure StartOutcome where
  replies : List String
  /-- The reply markup attached to the greeting, when one is sent. -/
  keyboard : Option (List (List String))
  raised : Bool
deriving DecidableEq, Repr

/-- `start` (lines 40-51): reject unauthorized callers, otherwise greet with
the three-option keyboard. -/
def start (ids : List Int) (chat_id : Int) : StartOutcome :=
  if !is_authorized ids chat_id then ⟨[rejection_message], none, false⟩
  else ⟨[greeting_message], some start_keyboard, false⟩

/-! ## `handle_text` (`bot.py` lines 54-70) -/

/-- Observable outcome of the text handler. -/
structure TextOutcome where
  rewriteCalls : List RewriteCall
  replies : List String
  raised : Bool
deriving DecidableEq, Repr

/-- `handle_text` (lines 54-70): reject unauthorized callers; normalize the
message with `strip().lower()`; answer the three keywords statically;
otherwise forward to `process_with_gpt` with its default system prompt
(Python fills in the omitted argument at the call on line 70). -/
def handle_text (ids : List Int) (chat_id : Int) (msg : String)
    (gptResult : Option String) (replyOk : Bool) : TextOutcome :=
  if !is_authorized ids chat_id then ⟨[], [rejection_message], false⟩
  else
    let text := pyLower (pyStrip msg)
    if text = "help" then ⟨[], [help_reply], false⟩
    else if text = "write" then ⟨[], [write_reply], false⟩
    else if text = "record" then ⟨[], [record_reply], false⟩
    else
      let g := process_with_gpt gptResult replyOk text default_system_prompt
      ⟨g.rewriteCalls, g.replies, g.raised⟩

/-! ## `handle_voice` (`bot.py` lines 73-102)

Oracle for the external calls of the voice pipeline. -/

/-- Outcomes of the external calls made while handling one voice message. -/
structure VoiceEnv where
  /-- Whether `context.bot.get_file(voice.file_id)` (line 82) succeeds. -/
  getFileOk : Bool
  /-- Whether the HTTP download into the temp file (lines 84-86) succeeds. -/
  downloadOk : Bool
  /-- `some text` when the transcription call (lines 92-95) returns that
  transcript, `none` when it raises. -/
  transcript : Option String
  /-- Outcome of the chat-completion call inside `process_with_gpt`. -/
  gptResult : Option String
  /-- Whether the `reply_text` inside `process_with_gpt` succeeds. -/
  replyOk : Bool
deriving DecidableEq, Repr

/-- Observable outcome of the voice handler. -/
structure VoiceOutcome where
  /-- Number of transcription requests issued. -/
  transcriptionCalls : Nat
  rewriteCalls : List RewriteCall
  replies : List String
  /-- Whether the temporary audio file was created. -/
  fileCreated : Bool
  /-- Number of `os.remove(audio_path)` calls executed (line 96 and/or 101). -/
  removeAttempts : Nat
  /-- Number of those calls that actually removed the file; `os.remove` on an
  already-removed path raises `FileNotFoundError` instead. -/
  removesSucceeded : Nat
  /-- Whether the temporary file still exists when the handler exits. -/
  fileLeaked : Bool
  /-- Whether an exception escaped `handle_voice`. -/
  raised : Bool
deriving DecidableEq, Repr

/-- `handle_voice` (lines 73-102).  The download (lines 81-87) happens before
the try/except, with `delete=False`, so a failure there escapes the handler
and leaves the file behind.  Inside the try, a transcription error reaches the
except branch, which removes the file and replies `voice_error_message`.  On
transcription success the file is removed (line 96) and `process_with_gpt` is
called with the explicit `"You are a helpful assistant."` prompt (line 99); if
that propagates an exception (the backend error itself is caught inside
`process_with_gpt`, but the reply delivery is not), the except branch runs
`os.remove` a second time on the already-removed path, which raises
`FileNotFoundError` before the error reply can be sent. -/
def handle_voice (ids : List Int) (chat_id : Int) (env : VoiceEnv) : VoiceOutcome :=
  if !is_authorized ids chat_id then
    ⟨0, [], [rejection_message], false, 0, 0, false, false⟩
  else if !env.getFileOk then
    ⟨0, [], [], false, 0, 0, false, true⟩
  else if !env.downloadOk then
    ⟨0, [], [], true, 0, 0, true, true⟩
  else
    match env.transcript with
    | none =>
      ⟨1, [], [voice_error_message], true, 1, 1, false, false⟩
    | some t =>
      let g := process_with_gpt env.gptResult env.replyOk t helpful_assistant_prompt
      if g.raised then
        ⟨1, g.rewriteCalls, g.replies, true, 2, 1, false, true⟩
      else
        ⟨1, g.rewriteCalls, g.replies, true, 1, 1, false, false⟩

/-! ## Theorems -/

/-- C9: `is_authorized` returns true iff the identity is a member of the
allow-list built from the configuration: an entry of the comma-separated
string whose stripped form is all digits and whose integer value is the
identity.  The absent configuration (empty string) yields the empty
allow-list, and a configuration with no digit-only entry (malformed) makes
`is_authorized` return false for every identity — reject-by-default. -/
theorem is_authorized_spec (raw_ids : String) (chat_id : Int) :
    (is_authorized (AUTHORIZED_CHAT_IDS raw_ids) chat_id = true ↔
       ∃ x ∈ pySplitComma raw_ids,
         pyIsDigit (pyStrip x) = true ∧ (pyIntOfDigits (pyStrip x) : Int) = chat_id) ∧
    AUTHORIZED_CHAT_IDS "" = [] ∧
    ((∀ x ∈ pySplitComma raw_ids, pyIsDigit (pyStrip x) = false) →
       is_authorized (AUTHORIZED_CHAT_IDS raw_ids) chat_id = false) := by
  refine ⟨?_, by decide, ?_⟩
  · simp [is_authorized, AUTHORIZED_CHAT_IDS, List.contains, List.mem_map, List.mem_filter]
    tauto
  · intro hall
    simp [is_authorized, AUTHORIZED_CHAT_IDS, List.contains, List.mem_map, List.mem_filter]
    intro x hx
    simp [hall x hx]

/-- Witness for C9 at concrete configurations: the absent configuration
parses to the empty allow-list, and a configuration with no digit-only entry
rejects identity 7. -/
theorem is_authorized_spec_witness :
    AUTHORIZED_CHAT_IDS "" = [] ∧
    is_authorized (AUTHORIZED_CHAT_IDS "abc, -5") 7 = false :=
  ⟨(is_authorized_spec "" 7).2.1, (is_authorized_spec "abc, -5" 7).2.2 (by decide)⟩

/-- C10: every entry the parser keeps is made purely of digits after
stripping, so each parsed identity is non-negative and every negative caller
identity is unauthorized under every configuration. -/
theorem negative_never_authorized (raw_ids : String) (chat_id : Int)
    (h : chat_id < 0) :
    (∀ a ∈ AUTHORIZED_CHAT_IDS raw_ids, 0 ≤ a) ∧
    is_authorized (AUTHORIZED_CHAT_IDS raw_ids) chat_id = false := by
  have hpos : ∀ a ∈ AUTHORIZED_CHAT_IDS raw_ids, 0 ≤ a := by
    intro a ha
    simp [AUTHORIZED_CHAT_IDS, List.mem_map, List.mem_filter] at ha
    obtain ⟨x, -, hx⟩ := ha
    omega
  refine ⟨hpos, ?_⟩
  by_contra hc
  simp [is_authorized, List.contains] at hc
  have := hpos chat_id hc
  omega

/-- Witness for C10: under the configuration `"12,-3"`, the negative identity
`-3` is rejected. -/
theorem negative_never_authorized_witness :
    is_authorized (AUTHORIZED_CHAT_IDS "12,-3") (-3) = false :=
  (negative_never_authorized "12,-3" (-3) (by decide)).2

/-- C5: an unauthorized caller gets exactly the rejection reply from each of
the three handlers, with no transcription call, no rewrite call, no file
download, and no exception. -/
theorem unauthorized_rejected (ids : List Int) (chat_id : Int) (msg : String)
    (gptResult : Option String) (replyOk : Bool) (env : VoiceEnv)
    (h : is_authorized ids chat_id = false) :
    start ids chat_id = ⟨[rejection_message], none, false⟩ ∧
    handle_text ids chat_id msg gptResult replyOk = ⟨[], [rejection_message], false⟩ ∧
    handle_voice ids chat_id env = ⟨0, [], [rejection_message], false, 0, 0, false, false⟩ := by
  simp [start, handle_text, handle_voice, h]

/-- Witness for C5: identity 7 is not in the allow-list `[42]` and is
rejected by the text handler. -/
theorem unauthorized_rejected_witness :
    handle_text [42] 7 "hello" none true = ⟨[], [rejection_message], false⟩ :=
  (unauthorized_rejected [42] 7 "hello" none true ⟨true, true, none, none, true⟩
    (by decide)).2.1

/-- C6: an authorized text message whose stripped, lowercased content equals
exactly one of the three keywords gets the corresponding static reply with no
rewrite call; any other content reaches `process_with_gpt`, producing exactly
one rewrite call — keyword matching is whole-string equality. -/
theorem keyword_exact_match (ids : List Int) (chat_id : Int) (msg : String)
    (gptResult : Option String) (replyOk : Bool)
    (h : is_authorized ids chat_id = true) :
    (pyLower (pyStrip msg) = "help" →
       handle_text ids chat_id msg gptResult replyOk = ⟨[], [help_reply], false⟩) ∧
    (pyLower (pyStrip msg) = "write" →
       handle_text ids chat_id msg gptResult replyOk = ⟨[], [write_reply], false⟩) ∧
    (pyLower (pyStrip msg) = "record" →
       handle_text ids chat_id msg gptResult replyOk = ⟨[], [record_reply], false⟩) ∧
    (pyLower (pyStrip msg) ∉ (["help", "write", "record"] : List String) →
       (handle_text ids chat_id msg gptResult replyOk).rewriteCalls =
         [⟨default_system_prompt, pyLower (pyStrip msg)⟩]) := by
  refine ⟨?_, ?_, ?_, ?_⟩ <;> intro hm
  · simp [handle_text, h, hm]
  · simp [handle_text, h, hm]
  · simp [handle_text, h, hm]
  · simp at hm
    push_neg at hm
    cases replyOk <;>
      simp [handle_text, h, process_with_gpt, hm.1, hm.2.1, hm.2.2]

/-- Witness for C6: `" HELP "` normalizes to the keyword `help` and gets the
static help reply with no rewrite call. -/
theorem keyword_exact_match_witness :
    handle_text [5] 5 " HELP " none true = ⟨[], [help_reply], false⟩ :=
  (keyword_exact_match [5] 5 " HELP " none true (by decide)).1 (by decide)

/-- C7: when the transcription call fails on an authorized voice message
(whose file resolution and download succeeded), no rewrite call is made, the
caller gets the generic transcription-failure message, and the temporary
file is removed exactly once. -/
theorem transcription_failure_no_rewrite (ids : List Int) (chat_id : Int)
    (env : VoiceEnv) (hauth : is_authorized ids chat_id = true)
    (hget : env.getFileOk = true) (hdl : env.downloadOk = true)
    (htr : env.transcript = none) :
    handle_voice ids chat_id env =
      ⟨1, [], [voice_error_message], true, 1, 1, false, false⟩ := by
  obtain ⟨gf, dl, tr, gp, rp⟩ := env
  simp only at hget hdl htr
  subst hget hdl htr
  simp [handle_voice, hauth]

/-- Witness for C7: a concrete authorized voice message whose transcription
fails. -/
theorem transcription_failure_no_rewrite_witness :
    handle_voice [5] 5 ⟨true, true, none, none, true⟩ =
      ⟨1, [], [voice_error_message], true, 1, 1, false, false⟩ :=
  transcription_failure_no_rewrite [5] 5 ⟨true, true, none, none, true⟩
    (by decide) rfl rfl rfl

/-- C1 counterexample: on a concrete authorized voice message with transcript
`"hello"`, the single rewrite call uses the plain helpful-assistant prompt
passed explicitly at `bot.py` line 99, which is not the default
rewriting-assistant prompt — refuting the claim that the voice path uses the
rewriting-assistant prompt. -/
theorem voice_prompt_claim_cex :
    (handle_voice [42] 42 ⟨true, true, some "hello", some "out", true⟩).rewriteCalls =
      [⟨helpful_assistant_prompt, "hello"⟩] ∧
    helpful_assistant_prompt ≠ default_system_prompt := by
  constructor <;> decide

/-- C1 amended: on an authorized voice message whose resolution and download
succeed and whose transcription returns `t`, exactly one transcription call
is followed by exactly one rewrite call, and that rewrite call uses the plain
`"You are a helpful assistant."` prompt, which differs from the default
rewriting-assistant prompt. -/
theorem voice_pipeline_prompt (ids : List Int) (chat_id : Int) (env : VoiceEnv)
    (t : String) (hauth : is_authorized ids chat_id = true)
    (hget : env.getFileOk = true) (hdl : env.downloadOk = true)
    (htr : env.transcript = some t) :
    (handle_voice ids chat_id env).transcriptionCalls = 1 ∧
    (handle_voice ids chat_id env).rewriteCalls = [⟨helpful_assistant_prompt, t⟩] ∧
    helpful_assistant_prompt ≠ default_system_prompt := by
  obtain ⟨gf, dl, tr, gp, rp⟩ := env
  simp only at hget hdl htr
  subst hget hdl htr
  refine ⟨?_, ?_, by decide⟩ <;>
    cases rp <;> simp [handle_voice, hauth, process_with_gpt]

/-- Witness for C1 (amended) at a concrete voice message. -/
theorem voice_pipeline_prompt_witness :
    (handle_voice [9] 9 ⟨true, true, some "note", some "out", true⟩).rewriteCalls =
      [⟨helpful_assistant_prompt, "note"⟩] :=
  (voice_pipeline_prompt [9] 9 ⟨true, true, some "note", some "out", true⟩ "note"
    (by decide) rfl rfl rfl).2.1

set_option maxRecDepth 8192 in
/-- C2 counterexample: on the concrete authorized text message
`"Tell me a joke"`, the single rewrite call uses the default
rewriting-assistant prompt (Python fills in the omitted `system_prompt`
argument at `bot.py` line 70), which is not `"You are a helpful assistant."`
— refuting the claim that the text path uses the helpful-assistant prompt. -/
theorem text_prompt_claim_cex :
    (handle_text [42] 42 "Tell me a joke" (some "out") true).rewriteCalls =
      [⟨default_system_prompt, "tell me a joke"⟩] ∧
    default_system_prompt ≠ helpful_assistant_prompt := by
  constructor <;> decide

/-- C2 amended: an authorized non-keyword text message produces exactly one
rewrite call, using the default rewriting-assistant system prompt, with
`user_content` equal to the stripped, lowercased input, and the reply equals
the backend output. -/
theorem text_freeform_rewrite (ids : List Int) (chat_id : Int) (msg out : String)
    (hauth : is_authorized ids chat_id = true)
    (hkw : pyLower (pyStrip msg) ∉ (["help", "write", "record"] : List String)) :
    handle_text ids chat_id msg (some out) true =
      ⟨[⟨default_system_prompt, pyLower (pyStrip msg)⟩], [out], false⟩ := by
  simp at hkw
  push_neg at hkw
  simp [handle_text, hauth, process_with_gpt, hkw.1, hkw.2.1, hkw.2.2]

/-- Witness for C2 (amended) at a concrete free-text message. -/
theorem text_freeform_rewrite_witness :
    handle_text [9] 9 " Hi There " (some "ok") true =
      ⟨[⟨default_system_prompt, "hi there"⟩], ["ok"], false⟩ :=
  text_freeform_rewrite [9] 9 " Hi There " "ok" (by decide) (by decide)

/-- C3: the tempfile-lifecycle invariant fails in the code.  First conjunct:
when the HTTP download raises (it sits outside the try/except and the file is
created with `delete=False`), the handler performs zero removals, leaks the
file, and lets the exception escape.  Second conjunct: when the reply
delivery fails after a successful transcription, `os.remove` is executed a
second time on the already-removed path and raises. -/
theorem tempfile_invariant_violated :
    handle_voice [42] 42 ⟨true, false, none, none, true⟩ =
      ⟨0, [], [], true, 0, 0, true, true⟩ ∧
    handle_voice [42] 42 ⟨true, true, some "hi", some "out", false⟩ =
      ⟨1, [⟨helpful_assistant_prompt, "hi"⟩], [], true, 2, 1, false, true⟩ := by
  constructor <;> decide

/-- C4 counterexample: when `get_file` (attachment-URL resolution) raises for
an authorized voice message, the exception escapes `handle_voice` — refuting
the claim that no exception escapes any handler. -/
theorem handler_exception_escape_cex :
    (handle_voice [42] 42 ⟨false, true, none, none, true⟩).raised = true := by
  decide

/-- C4 amended: failures of the transcription and rewrite backends are caught
inside the handlers, so provided attachment-URL resolution, download and
reply delivery succeed, no exception escapes any handler, and a transcription
failure is converted to the static transcription-error message; failures of
resolution or download, by contrast, escape the voice handler. -/
theorem handlers_catch_backend_failures (ids : List Int) (chat_id : Int)
    (msg : String) (gptResult : Option String) (env : VoiceEnv)
    (hget : env.getFileOk = true) (hdl : env.downloadOk = true)
    (hrp : env.replyOk = true) :
    (start ids chat_id).raised = false ∧
    (handle_text ids chat_id msg gptResult true).raised = false ∧
    (handle_voice ids chat_id env).raised = false ∧
    (env.transcript = none → is_authorized ids chat_id = true →
       (handle_voice ids chat_id env).replies = [voice_error_message]) := by
  obtain ⟨gf, dl, tr, gp, rp⟩ := env
  simp only at hget hdl hrp
  subst hget hdl hrp
  refine ⟨?_, ?_, ?_, ?_⟩
  · cases h : is_authorized ids chat_id <;> simp [start, h]
  · cases h : is_authorized ids chat_id
    · simp [handle_text, h]
    · simp [handle_text, h]
      split_ifs <;> simp [process_with_gpt]
  · cases h : is_authorized ids chat_id <;> cases tr <;>
      simp [handle_voice, h, process_with_gpt]
  · intro htr hauth
    simp only at htr
    subst htr
    simp [handle_voice, hauth]

/-- Witness for C4 (amended): with all transport calls succeeding and the
transcription failing, no exception escapes the voice handler. -/
theorem handlers_catch_backend_failures_witness :
    (handle_voice [9] 9 ⟨true, true, none, none, true⟩).raised = false :=
  (handlers_catch_backend_failures [9] 9 "x" none ⟨true, true, none, none, true⟩
    rfl rfl rfl).2.2.1

/-- C8: when the chat-completion backend raises, the rewrite step catches the
error, the caller still receives exactly one reply — the generic
processing-failure message — and no exception escapes: shown for
`process_with_gpt` itself, for the free-text path, and for the voice path
(where the temporary file is still removed exactly once). -/
theorem rewrite_failure_handled (ids : List Int) (chat_id : Int) (msg : String)
    (env : VoiceEnv) (t u s : String)
    (hauth : is_authorized ids chat_id = true)
    (hkw : pyLower (pyStrip msg) ∉ (["help", "write", "record"] : List String))
    (hget : env.getFileOk = true) (hdl : env.downloadOk = true)
    (htr : env.transcript = some t) (hgpt : env.gptResult = none)
    (hrp : env.replyOk = true) :
    process_with_gpt none true u s = ⟨[⟨s, u⟩], [gpt_error_message], false⟩ ∧
    handle_text ids chat_id msg none true =
      ⟨[⟨default_system_prompt, pyLower (pyStrip msg)⟩], [gpt_error_message], false⟩ ∧
    handle_voice ids chat_id env =
      ⟨1, [⟨helpful_assistant_prompt, t⟩], [gpt_error_message], true, 1, 1,
        false, false⟩ := by
  obtain ⟨gf, dl, tr, gp, rp⟩ := env
  simp only at hget hdl htr hgpt hrp
  subst hget hdl htr hgpt hrp
  simp at hkw
  push_neg at hkw
  refine ⟨rfl, ?_, ?_⟩
  · simp [handle_text, hauth, process_with_gpt, hkw.1, hkw.2.1, hkw.2.2]
  · simp [handle_voice, hauth, process_with_gpt]

/-- Witness for C8 at a concrete failing rewrite call. -/
theorem rewrite_failure_handled_witness :
    handle_text [9] 9 "tell me more" none true =
      ⟨[⟨default_system_prompt, "tell me more"⟩], [gpt_error_message], false⟩ :=
  (rewrite_failure_handled [9] 9 "tell me more"
    ⟨true, true, some "t", none, true⟩ "t" "u" "s"
    (by decide) (by decide) rfl rfl rfl rfl rfl).2.1

end CarerMateBot
